import Mathlib

/-!
# Verification of the running-course generator's route-selection algorithm

A shallow embedding of `src/services/mapService.ts` (helpers
`calculateIntermediatePoint`, `calculateCumulativeElevation`, and the exported
`findOptimalLoopRoute`), of the relevant constants from `src/constants.ts`, and
of the caller-side precondition guards in the application component
(`handleGenerateCourse`).  JavaScript numbers are modelled as rationals,
asynchronous service calls as explicit function-valued fields of a
`GoogleMapsEnv` record, promise resolution values as `Option`, and the thrown
precondition error as `Except.error`.
-/

namespace RunningCourse

/-- A geographic coordinate (`google.maps.LatLng`): latitude and longitude in
decimal degrees. -/
structure LatLng where
  lat : ℚ
  lng : ℚ
deriving DecidableEq

/-- `google.maps.Distance`: the `value` field carries meters. -/
structure Distance where
  value : ℚ
deriving DecidableEq

/-- A leg of a directions route; `distance` is optional in the Maps API
(`leg.distance?.value`). -/
structure DirectionsLeg where
  distance : Option Distance
deriving DecidableEq

/-- A single route of a `DirectionsResult`: its legs and its overview path. -/
structure DirectionsRoute where
  legs : List DirectionsLeg
  overview_path : List LatLng
deriving DecidableEq

/-- `google.maps.DirectionsResult`: a list of alternative routes. -/
structure DirectionsResult where
  routes : List DirectionsRoute
deriving DecidableEq

/-- Status delivered to the directions callback.  Every status other than
`OK` and `ZERO_RESULTS` is collapsed into `OTHER_ERROR`; the selection logic
only distinguishes `OK` from the rest. -/
inductive DirectionsStatus
  | OK
  | ZERO_RESULTS
  | OTHER_ERROR
deriving DecidableEq

/-- `google.maps.ElevationResult`: the `elevation` field, in meters. -/
structure ElevationResult where
  elevation : ℚ
deriving DecidableEq

/-- Status delivered to the elevation callback. -/
inductive ElevationStatus
  | OK
  | ERROR
deriving DecidableEq

/-- `OptimalRouteData` from `src/types.ts`: the original directions result plus
the two measurements used for scoring. -/
structure OptimalRouteData where
  route : DirectionsResult
  distanceKm : ℚ
  elevationGainM : ℚ
deriving DecidableEq

/-- Travel mode of a directions request; the service always uses `WALKING`. -/
inductive TravelMode
  | WALKING
deriving DecidableEq

/-- The fields of a `google.maps.DirectionsRequest` that the service sets. -/
structure DirectionsRequest where
  origin : LatLng
  destination : LatLng
  waypoints : List LatLng
  travelMode : TravelMode
deriving DecidableEq

/-- The argument record of `getElevationForPath`. -/
structure ElevationRequest where
  path : List LatLng
  samples : Nat
deriving DecidableEq

/-- `NUM_INTERMEDIATE_POINT_CANDIDATES` from `src/constants.ts`. -/
def NUM_INTERMEDIATE_POINT_CANDIDATES : Nat := 8

/-- `INTERMEDIATE_POINT_RADIUS_FACTOR` from `src/constants.ts`. -/
def INTERMEDIATE_POINT_RADIUS_FACTOR : ℚ := 0.4

/-- `DISTANCE_TOLERANCE_FACTOR` from `src/constants.ts`. -/
def DISTANCE_TOLERANCE_FACTOR : ℚ := 0.25

/-- `ELEVATION_SAMPLES` from `src/constants.ts`. -/
def ELEVATION_SAMPLES : Nat := 128

/-- The ambient Google Maps environment: availability flags for `window.google
&& window.google.maps` and for the geometry library, plus the three external
capabilities the service consumes.  `route` models `DirectionsService.route`
delivering `(status, result)` to its callback; `getElevationForPath` models
`ElevationService.getElevationForPath`. -/
structure GoogleMapsEnv where
  mapsApiLoaded : Bool
  geometryLoaded : Bool
  computeOffset : LatLng → ℚ → ℚ → LatLng
  route : DirectionsRequest → DirectionsStatus × Option DirectionsResult
  getElevationForPath : ElevationRequest → ElevationStatus × Option (List ElevationResult)

/-- `calculateIntermediatePoint` from `src/services/mapService.ts`: returns the
spherical offset of `startPoint` by `distanceMeters` at `angleDegrees` when the
geometry library is available, and `null` otherwise. -/
def calculateIntermediatePoint (env : GoogleMapsEnv) (startPoint : LatLng)
    (angleDegrees : ℚ) (distanceMeters : ℚ) : Option LatLng :=
  if env.mapsApiLoaded && env.geometryLoaded then
    some (env.computeOffset startPoint distanceMeters angleDegrees)
  else
    none

/-- `calculateCumulativeElevation` from `src/services/mapService.ts`: the loop
`for i in 1..<n, if e[i] - e[i-1] > 0 then gain += e[i] - e[i-1]`, rendered as
structural recursion over consecutive pairs. -/
def calculateCumulativeElevation : List ElevationResult → ℚ
  | [] => 0
  | [_] => 0
  | prev :: curr :: rest =>
    (if curr.elevation - prev.elevation > 0 then curr.elevation - prev.elevation else 0)
      + calculateCumulativeElevation (curr :: rest)

/-- The `actualDistanceMeters` computation inside the directions callback:
`route.legs.reduce((sum, leg) => sum + (leg.distance?.value || 0), 0)`. -/
def actualDistanceMeters (route : DirectionsRoute) : ℚ :=
  route.legs.foldl (fun sum leg => sum + ((leg.distance.map Distance.value).getD 0)) 0

/-- The elevation request built inside the directions callback:
`{ path: pathForElevation, samples: Math.min(ELEVATION_SAMPLES, pathForElevation.length) }`. -/
def buildElevationRequest (pathForElevation : List LatLng) : ElevationRequest :=
  { path := pathForElevation, samples := min ELEVATION_SAMPLES pathForElevation.length }

/-- The body of the per-candidate promise in `findOptimalLoopRoute`
(`src/services/mapService.ts`): given the directions response for one
candidate waypoint and the elevation capability, produce either an
`OptimalRouteData` or `null`. -/
def evaluateCandidate (resp : DirectionsStatus × Option DirectionsResult)
    (elevationService : ElevationRequest → ElevationStatus × Option (List ElevationResult)) :
    Option OptimalRouteData :=
  match resp with
  | (DirectionsStatus.OK, some result) =>
    match result.routes with
    | [] => none
    | route :: _ =>
      if actualDistanceMeters route = 0 then
        none
      else if route.overview_path.length < 2 then
        none
      else
        match elevationService (buildElevationRequest route.overview_path) with
        | (ElevationStatus.OK, some elevationResults) =>
          some { route := result
                 distanceKm := actualDistanceMeters route / 1000
                 elevationGainM := calculateCumulativeElevation elevationResults }
        | _ => none
  | _ => none

/-- The collection pass after `Promise.allSettled`: keep exactly the fulfilled
outcomes whose value is non-null. -/
def collectValidRoutes (results : List (Except String (Option OptimalRouteData))) :
    List OptimalRouteData :=
  results.filterMap fun r =>
    match r with
    | Except.ok (some v) => some v
    | _ => none

/-- The comparator passed to `routesInTolerance.sort`: ascending
`elevationGainM`, ties broken by ascending `|distanceKm - desiredDistanceKm|`,
rendered as the boolean total preorder `cmp a b ≤ 0`. -/
def toleranceSortLE (desiredDistanceKm : ℚ) (a b : OptimalRouteData) : Bool :=
  decide (if a.elevationGainM = b.elevationGainM then
    |a.distanceKm - desiredDistanceKm| ≤ |b.distanceKm - desiredDistanceKm|
  else
    a.elevationGainM ≤ b.elevationGainM)

/-- The comparator passed to `validRoutes.sort` in the fallback branch:
ascending `|distanceKm - desiredDistanceKm|`, ties broken by ascending
`elevationGainM`, rendered as the boolean total preorder `cmp a b ≤ 0`. -/
def fallbackSortLE (desiredDistanceKm : ℚ) (a b : OptimalRouteData) : Bool :=
  decide (if |a.distanceKm - desiredDistanceKm| = |b.distanceKm - desiredDistanceKm| then
    a.elevationGainM ≤ b.elevationGainM
  else
    |a.distanceKm - desiredDistanceKm| ≤ |b.distanceKm - desiredDistanceKm|)

/-- The selection logic at the end of `findOptimalLoopRoute`: the tolerance
window, the two-tier sort, and the `[0]` lookups.  JavaScript's `Array.sort`
is required to be stable, so it is modelled by `List.mergeSort`. -/
def selectBestRoute (validRoutes : List OptimalRouteData) (desiredDistanceKm : ℚ) :
    Option OptimalRouteData :=
  if validRoutes.length = 0 then
    none
  else
    let minDesiredKm := desiredDistanceKm * (1 - DISTANCE_TOLERANCE_FACTOR)
    let maxDesiredKm := desiredDistanceKm * (1 + DISTANCE_TOLERANCE_FACTOR)
    let routesInTolerance := validRoutes.filter fun r =>
      decide (minDesiredKm ≤ r.distanceKm) && decide (r.distanceKm ≤ maxDesiredKm)
    if 0 < routesInTolerance.length then
      (routesInTolerance.mergeSort (toleranceSortLE desiredDistanceKm)).head?
    else
      let sorted := validRoutes.mergeSort (fallbackSortLE desiredDistanceKm)
      if 0 < sorted.length then sorted.head? else none

/-- The candidate waypoint generation loop of `findOptimalLoopRoute` (lines
39–47): for `i` in `0..<NUM_INTERMEDIATE_POINT_CANDIDATES`, the spherical
offset at angle `(360 / NUM_INTERMEDIATE_POINT_CANDIDATES) * i` and radius
`desiredDistanceKm * INTERMEDIATE_POINT_RADIUS_FACTOR * 1000`; a `null`
projection is skipped (`continue`). -/
def candidateWaypoints (env : GoogleMapsEnv) (startPoint : LatLng)
    (desiredDistanceKm : ℚ) : List LatLng :=
  let intermediateDistanceMeters := desiredDistanceKm * INTERMEDIATE_POINT_RADIUS_FACTOR * 1000
  (List.range NUM_INTERMEDIATE_POINT_CANDIDATES).filterMap fun i =>
    calculateIntermediatePoint env startPoint
      ((360 / (NUM_INTERMEDIATE_POINT_CANDIDATES : ℚ)) * i) intermediateDistanceMeters

/-- `findOptimalLoopRoute` from `src/services/mapService.ts`: the precondition
throw, the candidate fan-out (one always-resolving promise per generated
waypoint), the `Promise.allSettled` collection, and the final selection. -/
def findOptimalLoopRoute (env : GoogleMapsEnv) (startPoint : LatLng)
    (desiredDistanceKm : ℚ) : Except String (Option OptimalRouteData) :=
  if !env.mapsApiLoaded then
    Except.error "Google Maps API not loaded."
  else
    let candidateResults : List (Except String (Option OptimalRouteData)) :=
      (candidateWaypoints env startPoint desiredDistanceKm).map fun intermediateGeoPoint =>
        Except.ok (evaluateCandidate
          (env.route { origin := startPoint
                       destination := startPoint
                       waypoints := [intermediateGeoPoint]
                       travelMode := TravelMode.WALKING })
          env.getElevationForPath)
    let validRoutes := collectValidRoutes candidateResults
    Except.ok (selectBestRoute validRoutes desiredDistanceKm)

/-- Outcome of one press of the generate button, as observed by the user. -/
inductive GenerateOutcome
  | validationError (msg : String)
  | serviceError (msg : String)
  | noCourse
  | course (data : OptimalRouteData)
deriving DecidableEq

/-- The guard structure of `handleGenerateCourse` in the application component:
missing start point and non-positive distance are rejected before the service
is invoked; a thrown service error is caught and reported; a `null` result
becomes the "could not find a suitable course" message. -/
def handleGenerateCourse (env : GoogleMapsEnv) (userStartPoint : Option LatLng)
    (desiredDistanceKm : ℚ) : GenerateOutcome :=
  match userStartPoint with
  | none => GenerateOutcome.validationError "Please set a start point on the map."
  | some startPoint =>
    if desiredDistanceKm ≤ 0 then
      GenerateOutcome.validationError "Please enter a valid distance greater than 0 km."
    else
      match findOptimalLoopRoute env startPoint desiredDistanceKm with
      | Except.error msg => GenerateOutcome.serviceError msg
      | Except.ok none => GenerateOutcome.noCourse
      | Except.ok (some data) => GenerateOutcome.course data

/-- A dummy directions result used for concrete scenario candidates: the
selection logic never inspects it. -/
def dummyResult : DirectionsResult := ⟨[]⟩

/-- Scenario candidate A: 5.0 km, 50 m gain. -/
def candA : OptimalRouteData := ⟨dummyResult, 5, 50⟩

/-- Scenario candidate B: 4.0 km, 10 m gain. -/
def candB : OptimalRouteData := ⟨dummyResult, 4, 10⟩

/-- Scenario candidate C: 6.5 km, 5 m gain. -/
def candC : OptimalRouteData := ⟨dummyResult, 13 / 2, 5⟩

/-- Scenario candidate D: 7.0 km, 20 m gain. -/
def candD : OptimalRouteData := ⟨dummyResult, 7, 20⟩

/-- Scenario candidate E: 8.0 km, 5 m gain. -/
def candE : OptimalRouteData := ⟨dummyResult, 8, 5⟩

/-- A concrete environment in which everything is available but every remote
query fails. -/
def envAllQueriesFail : GoogleMapsEnv where
  mapsApiLoaded := true
  geometryLoaded := true
  computeOffset := fun p d a => ⟨p.lat + d, p.lng + a⟩
  route := fun _ => (DirectionsStatus.OTHER_ERROR, none)
  getElevationForPath := fun _ => (ElevationStatus.ERROR, none)

/-- A concrete environment in which the Maps API is loaded but the geometry
(projection) library is not. -/
def envNoGeometry : GoogleMapsEnv where
  mapsApiLoaded := true
  geometryLoaded := false
  computeOffset := fun p d a => ⟨p.lat + d, p.lng + a⟩
  route := fun _ => (DirectionsStatus.OTHER_ERROR, none)
  getElevationForPath := fun _ => (ElevationStatus.ERROR, none)

/-- A strictly ascending elevation sample list used as a witness input. -/
def elevAsc : List ElevationResult := [⟨1⟩, ⟨2⟩, ⟨5⟩]

/-- A non-increasing elevation sample list used as a witness input. -/
def elevDesc : List ElevationResult := [⟨9⟩, ⟨4⟩, ⟨4⟩, ⟨1⟩]

/-- A route whose legs all lack a distance value. -/
def routeNoDist : DirectionsRoute := ⟨[⟨none⟩, ⟨none⟩], [⟨0, 0⟩, ⟨1, 1⟩]⟩

/-- A directions result whose only route is `routeNoDist`. -/
def resultNoDist : DirectionsResult := ⟨[routeNoDist]⟩

/-- A well-formed route: one leg of 1000 m and a two-point overview path. -/
def goodRoute : DirectionsRoute := ⟨[⟨some ⟨1000⟩⟩], [⟨0, 0⟩, ⟨1, 1⟩]⟩

/-- A directions result whose only route is `goodRoute`. -/
def goodResult : DirectionsResult := ⟨[goodRoute]⟩

/-- A route with positive distance but a one-point overview path. -/
def shortPathRoute : DirectionsRoute := ⟨[⟨some ⟨500⟩⟩], [⟨0, 0⟩]⟩

/-- A directions result whose only route is `shortPathRoute`. -/
def shortPathResult : DirectionsResult := ⟨[shortPathRoute]⟩

/-- An elevation capability that always succeeds with two samples. -/
def elevServiceOk : ElevationRequest → ElevationStatus × Option (List ElevationResult) :=
  fun _ => (ElevationStatus.OK, some [⟨1⟩, ⟨2⟩])

/-- A concrete settled-outcome list in which every evaluation failed: one
rejected promise and one fulfilled-with-null promise. -/
def resultsAllFail : List (Except String (Option OptimalRouteData)) :=
  [Except.error "boom", Except.ok none]

/-- A concrete environment in which the Maps API itself is unavailable. -/
def envMapsOff : GoogleMapsEnv :=
  { envNoGeometry with mapsApiLoaded := false }

/-! ## Helper lemmas -/

theorem calcGain_eq_sum : ∀ l : List ElevationResult,
    calculateCumulativeElevation l
      = ((l.zip l.tail).map fun p => max 0 (p.2.elevation - p.1.elevation)).sum
  | [] => by simp [calculateCumulativeElevation]
  | [_] => by simp [calculateCumulativeElevation]
  | a :: b :: rest => by
    have ih := calcGain_eq_sum (b :: rest)
    simp only [calculateCumulativeElevation, List.tail_cons, List.zip_cons_cons,
      List.map_cons, List.sum_cons] at ih ⊢
    rw [ih]
    congr 1
    rcases le_or_lt (b.elevation - a.elevation) 0 with h | h
    · rw [if_neg (not_lt.mpr h), max_eq_left h]
    · rw [if_pos h, max_eq_right (le_of_lt h)]

theorem calcGain_of_desc : ∀ l : List ElevationResult,
    l.Chain' (fun x y => y.elevation ≤ x.elevation) → calculateCumulativeElevation l = 0
  | [], _ => rfl
  | [_], _ => rfl
  | a :: b :: rest, h => by
    rw [List.chain'_cons] at h
    have ih := calcGain_of_desc (b :: rest) h.2
    have hneg : ¬ (b.elevation - a.elevation > 0) := not_lt.mpr (sub_nonpos.mpr h.1)
    simp only [calculateCumulativeElevation, if_neg hneg, ih, add_zero]

theorem calcGain_of_asc : ∀ l : List ElevationResult, l ≠ [] →
    l.Chain' (fun x y => x.elevation ≤ y.elevation) →
    ∃ fst lst, l.head? = some fst ∧ l.getLast? = some lst ∧
      calculateCumulativeElevation l = lst.elevation - fst.elevation
  | [], h, _ => absurd rfl h
  | [a], _, _ => ⟨a, a, rfl, rfl, by simp [calculateCumulativeElevation]⟩
  | a :: b :: rest, _, h => by
    rw [List.chain'_cons] at h
    obtain ⟨fst, lst, hfst, hlst, hgain⟩ :=
      calcGain_of_asc (b :: rest) (List.cons_ne_nil _ _) h.2
    have hb : b = fst := by simpa using hfst
    rw [← hb] at hgain
    refine ⟨a, lst, rfl, ?_, ?_⟩
    · rw [List.getLast?_cons_cons]
      exact hlst
    · have hstep : (if b.elevation - a.elevation > 0 then b.elevation - a.elevation else 0)
          = b.elevation - a.elevation := by
        rcases lt_or_eq_of_le h.1 with hlt | heq
        · rw [if_pos (by linarith)]
        · rw [heq]
          simp
      simp only [calculateCumulativeElevation, hstep, hgain]
      ring

theorem foldl_add_map_sum (c : DirectionsLeg → ℚ) :
    ∀ (legs : List DirectionsLeg) (a : ℚ),
      legs.foldl (fun s leg => s + c leg) a = a + (legs.map c).sum
  | [], a => by simp
  | leg :: legs, a => by
    simp only [List.foldl_cons, List.map_cons, List.sum_cons,
      foldl_add_map_sum c legs (a + c leg)]
    ring

theorem actualDistanceMeters_eq_sum (route : DirectionsRoute) :
    actualDistanceMeters route
      = ((route.legs.filterMap DirectionsLeg.distance).map Distance.value).sum := by
  rw [actualDistanceMeters, foldl_add_map_sum, zero_add]
  induction route.legs with
  | nil => rfl
  | cons leg legs ih =>
    cases hd : leg.distance with
    | none =>
      simp only [List.map_cons, List.sum_cons, List.filterMap_cons, hd, Option.map_none',
        Option.getD_none, ih, zero_add]
    | some dv =>
      simp only [List.map_cons, List.sum_cons, List.filterMap_cons, hd, Option.map_some',
        Option.getD_some, ih]

theorem actualDistanceMeters_nonneg (route : DirectionsRoute)
    (h : ∀ leg ∈ route.legs, ∀ dv, leg.distance = some dv → 0 ≤ dv.value) :
    0 ≤ actualDistanceMeters route := by
  rw [actualDistanceMeters_eq_sum]
  apply List.sum_nonneg
  intro x hx
  simp only [List.mem_map, List.mem_filterMap] at hx
  obtain ⟨dv, ⟨leg, hleg, hdist⟩, rfl⟩ := hx
  exact h leg hleg dv hdist

theorem mem_of_head?_eq_some {α : Type} {l : List α} {a : α} (h : l.head? = some a) :
    a ∈ l := by
  cases l with
  | nil => simp at h
  | cons x xs =>
    simp only [List.head?_cons, Option.some.injEq] at h
    subst h
    exact List.mem_cons_self _ _

theorem selectBestRoute_mem (vr : List OptimalRouteData) (dd : ℚ) (res : OptimalRouteData)
    (h : selectBestRoute vr dd = some res) : res ∈ vr := by
  simp only [selectBestRoute] at h
  by_cases h0 : vr.length = 0
  · rw [if_pos h0] at h
    simp at h
  · rw [if_neg h0] at h
    by_cases h1 : 0 < (vr.filter fun x =>
        decide (dd * (1 - DISTANCE_TOLERANCE_FACTOR) ≤ x.distanceKm) &&
          decide (x.distanceKm ≤ dd * (1 + DISTANCE_TOLERANCE_FACTOR))).length
    · rw [if_pos h1] at h
      exact (List.mem_filter.mp (List.mem_mergeSort.mp (mem_of_head?_eq_some h))).1
    · rw [if_neg h1] at h
      by_cases h2 : 0 < (vr.mergeSort (fallbackSortLE dd)).length
      · rw [if_pos h2] at h
        exact List.mem_mergeSort.mp (mem_of_head?_eq_some h)
      · rw [if_neg h2] at h
        simp at h

/-! ## Claim theorems -/

/-- C4: `calculateCumulativeElevation` equals the sum over consecutive pairs of
`max 0 (next - previous)`; a non-increasing sample sequence yields gain 0; a
non-decreasing sequence yields gain `last - first`. -/
theorem c4_cumulative_gain (l : List ElevationResult) :
    calculateCumulativeElevation l
      = ((l.zip l.tail).map fun p => max 0 (p.2.elevation - p.1.elevation)).sum ∧
    (l.Chain' (fun x y => y.elevation ≤ x.elevation) → calculateCumulativeElevation l = 0) ∧
    (l ≠ [] → l.Chain' (fun x y => x.elevation ≤ y.elevation) →
      ∃ fst lst, l.head? = some fst ∧ l.getLast? = some lst ∧
        calculateCumulativeElevation l = lst.elevation - fst.elevation) :=
  ⟨calcGain_eq_sum l, calcGain_of_desc l, calcGain_of_asc l⟩

/-- Witness for C4 at concrete monotone inputs. -/
theorem c4_cumulative_gain_witness :
    calculateCumulativeElevation elevDesc = 0 ∧
    (∃ fst lst, elevAsc.head? = some fst ∧ elevAsc.getLast? = some lst ∧
      calculateCumulativeElevation elevAsc = lst.elevation - fst.elevation) :=
  ⟨(c4_cumulative_gain elevDesc).2.1 (by norm_num [elevDesc, List.chain'_cons]),
   (c4_cumulative_gain elevAsc).2.2 (by decide) (by norm_num [elevAsc, List.chain'_cons])⟩

/-- C9: the cumulative elevation gain computation is a total function, and on
any sequence with fewer than 2 samples it returns 0. -/
theorem c9_short_input_gain_zero (l : List ElevationResult) (h : l.length < 2) :
    calculateCumulativeElevation l = 0 := by
  match l with
  | [] => rfl
  | [_] => rfl
  | _ :: _ :: t => exact absurd h (by simp)

/-- Witness for C9 on the empty and singleton lists. -/
theorem c9_short_input_gain_zero_witness :
    calculateCumulativeElevation [] = 0 ∧
    calculateCumulativeElevation [(⟨7⟩ : ElevationResult)] = 0 :=
  ⟨c9_short_input_gain_zero [] (by decide),
   c9_short_input_gain_zero [⟨7⟩] (by decide)⟩

/-- C10: a leg without a distance value contributes 0 meters to the sum (the
sum ranges over the legs that do carry values); a first route all of whose legs
lack distance values sums to 0 meters and is discarded, not surfaced. -/
theorem c10_missing_leg_distances
    (elevationService : ElevationRequest → ElevationStatus × Option (List ElevationResult)) :
    (∀ route : DirectionsRoute,
      actualDistanceMeters route
        = ((route.legs.filterMap DirectionsLeg.distance).map Distance.value).sum) ∧
    (∀ (result : DirectionsResult) (route : DirectionsRoute) (rest : List DirectionsRoute),
      result.routes = route :: rest →
      (∀ leg ∈ route.legs, leg.distance = none) →
      actualDistanceMeters route = 0 ∧
        evaluateCandidate (DirectionsStatus.OK, some result) elevationService = none) := by
  refine ⟨actualDistanceMeters_eq_sum, ?_⟩
  intro result route rest hroutes hnone
  have hnil : route.legs.filterMap DirectionsLeg.distance = [] := by
    rw [List.filterMap_eq_nil_iff]
    exact hnone
  have hzero : actualDistanceMeters route = 0 := by
    rw [actualDistanceMeters_eq_sum, hnil]
    rfl
  refine ⟨hzero, ?_⟩
  simp [evaluateCandidate, hroutes, hzero]

/-- Witness for C10 on a route whose two legs both lack distance values. -/
theorem c10_missing_leg_distances_witness :
    actualDistanceMeters routeNoDist = 0 ∧
      evaluateCandidate (DirectionsStatus.OK, some resultNoDist) elevServiceOk = none :=
  (c10_missing_leg_distances elevServiceOk).2 resultNoDist routeNoDist [] rfl
    (by
      intro leg hleg
      simp only [routeNoDist, List.mem_cons, List.not_mem_nil, or_false] at hleg
      rcases hleg with rfl | rfl <;> rfl)

/-- C8: the elevation request built for a successful route with `p ≥ 2` path
points asks for exactly `min 128 p` samples, and the evaluator consults the
elevation capability only through such requests. -/
theorem c8_elevation_sample_count :
    (∀ pathForElevation : List LatLng, 2 ≤ pathForElevation.length →
      (buildElevationRequest pathForElevation).samples = min 128 pathForElevation.length) ∧
    (∀ (resp : DirectionsStatus × Option DirectionsResult)
      (e₁ e₂ : ElevationRequest → ElevationStatus × Option (List ElevationResult)),
      (∀ p : List LatLng, e₁ (buildElevationRequest p) = e₂ (buildElevationRequest p)) →
      evaluateCandidate resp e₁ = evaluateCandidate resp e₂) := by
  constructor
  · intro p _
    rfl
  · rintro ⟨status, result?⟩ e₁ e₂ h
    cases result? with
    | none => cases status <;> rfl
    | some result =>
      cases status with
      | OK =>
        rcases hr : result.routes with _ | ⟨route, rest⟩
        · simp [evaluateCandidate, hr]
        · simp only [evaluateCandidate, hr]
          rw [h]
      | ZERO_RESULTS => rfl
      | OTHER_ERROR => rfl

/-- Witness for C8 on a two-point path and a concrete evaluator input. -/
theorem c8_elevation_sample_count_witness :
    (buildElevationRequest [⟨0, 0⟩, ⟨1, 1⟩]).samples = min 128 2 ∧
    evaluateCandidate (DirectionsStatus.OK, some goodResult) elevServiceOk
      = evaluateCandidate (DirectionsStatus.OK, some goodResult) elevServiceOk :=
  ⟨(c8_elevation_sample_count).1 [⟨0, 0⟩, ⟨1, 1⟩] (by decide),
   (c8_elevation_sample_count).2 (DirectionsStatus.OK, some goodResult)
     elevServiceOk elevServiceOk (fun _ => rfl)⟩

/-- C7: a surfaced candidate has positive `distanceKm` and a first route with
at least 2 overview-path points (given non-negative leg distances); a
zero-distance route or a sub-2-point path is discarded. -/
theorem c7_candidate_invariants
    (elevationService : ElevationRequest → ElevationStatus × Option (List ElevationResult)) :
    (∀ (status : DirectionsStatus) (result? : Option DirectionsResult) (rc : OptimalRouteData),
      (∀ result, result? = some result → ∀ route ∈ result.routes, ∀ leg ∈ route.legs,
        ∀ dv, leg.distance = some dv → 0 ≤ dv.value) →
      evaluateCandidate (status, result?) elevationService = some rc →
      0 < rc.distanceKm ∧
        ∃ route rest, rc.route.routes = route :: rest ∧ 2 ≤ route.overview_path.length) ∧
    (∀ (result : DirectionsResult) (route : DirectionsRoute) (rest : List DirectionsRoute),
      result.routes = route :: rest → actualDistanceMeters route = 0 →
      evaluateCandidate (DirectionsStatus.OK, some result) elevationService = none) ∧
    (∀ (result : DirectionsResult) (route : DirectionsRoute) (rest : List DirectionsRoute),
      result.routes = route :: rest → route.overview_path.length < 2 →
      evaluateCandidate (DirectionsStatus.OK, some result) elevationService = none) ∧
    (∀ (vr : List OptimalRouteData) (dd : ℚ) (res : OptimalRouteData),
      selectBestRoute vr dd = some res → res ∈ vr) := by
  refine ⟨?_, ?_, ?_, selectBestRoute_mem⟩
  · intro status result? rc hnn heval
    cases result? with
    | none => cases status <;> simp [evaluateCandidate] at heval
    | some result =>
      cases status with
      | ZERO_RESULTS => simp [evaluateCandidate] at heval
      | OTHER_ERROR => simp [evaluateCandidate] at heval
      | OK =>
        rcases hr : result.routes with _ | ⟨route, rest⟩
        · simp [evaluateCandidate, hr] at heval
        · simp only [evaluateCandidate, hr] at heval
          by_cases h0 : actualDistanceMeters route = 0
          · simp [h0] at heval
          · by_cases h2 : route.overview_path.length < 2
            · simp [h0, h2] at heval
            · simp only [if_neg h0, if_neg h2] at heval
              rcases he : elevationService (buildElevationRequest route.overview_path)
                with ⟨es, er?⟩
              rw [he] at heval
              cases es with
              | ERROR => simp at heval
              | OK =>
                cases er? with
                | none => simp at heval
                | some ers =>
                  simp only [Option.some.injEq] at heval
                  subst heval
                  have hpos : 0 < actualDistanceMeters route := by
                    have hge : 0 ≤ actualDistanceMeters route :=
                      actualDistanceMeters_nonneg route
                        (hnn result rfl route (hr ▸ List.mem_cons_self _ _))
                    exact lt_of_le_of_ne hge (Ne.symm h0)
                  refine ⟨by positivity, route, rest, hr, not_lt.mp h2⟩
  · intro result route rest hroutes hzero
    simp [evaluateCandidate, hroutes, hzero]
  · intro result route rest hroutes hshort
    by_cases h0 : actualDistanceMeters route = 0
    · simp [evaluateCandidate, hroutes, h0]
    · simp [evaluateCandidate, hroutes, h0, hshort]

/-- C5: with the projection capability available, the candidate geometry
generation yields exactly `N = 8` waypoints, the `i`-th being the spherical
offset of the start point at bearing `(360 / 8) * i = 45 * i` degrees and at
the common radius `d * 0.4 * 1000` meters. -/
theorem c5_candidate_geometry (env : GoogleMapsEnv) (startPoint : LatLng) (d : ℚ)
    (_hd : 0 < d) (hm : env.mapsApiLoaded = true) (hg : env.geometryLoaded = true) :
    (candidateWaypoints env startPoint d).length = 8 ∧
    ∀ i : Nat, i < 8 →
      (candidateWaypoints env startPoint d)[i]?
        = some (env.computeOffset startPoint (d * (2 / 5) * 1000) (45 * (i : ℚ))) := by
  have hmap : candidateWaypoints env startPoint d
      = (List.range NUM_INTERMEDIATE_POINT_CANDIDATES).map fun i : Nat =>
          env.computeOffset startPoint (d * INTERMEDIATE_POINT_RADIUS_FACTOR * 1000)
            ((360 / (NUM_INTERMEDIATE_POINT_CANDIDATES : ℚ)) * i) := by
    simp only [candidateWaypoints, calculateIntermediatePoint, hm, hg, Bool.and_self, if_true]
    exact congrFun (List.filterMap_eq_map _) _
  constructor
  · rw [hmap, List.length_map, List.length_range]
    rfl
  · intro i hi
    rw [hmap, List.getElem?_map,
      List.getElem?_range (show i < NUM_INTERMEDIATE_POINT_CANDIDATES from hi),
      Option.map_some']
    have h1 : d * INTERMEDIATE_POINT_RADIUS_FACTOR * 1000 = d * (2 / 5) * 1000 := by
      norm_num [INTERMEDIATE_POINT_RADIUS_FACTOR]
    have h2 : (360 / (NUM_INTERMEDIATE_POINT_CANDIDATES : ℚ)) * i = 45 * (i : ℚ) := by
      norm_num [NUM_INTERMEDIATE_POINT_CANDIDATES]
    rw [h1, h2]

/-- Witness for C5 in a concrete environment with the projection available. -/
theorem c5_candidate_geometry_witness :
    (candidateWaypoints envAllQueriesFail ⟨35, 139⟩ 5).length = 8 ∧
    ∀ i : Nat, i < 8 →
      (candidateWaypoints envAllQueriesFail ⟨35, 139⟩ 5)[i]?
        = some (envAllQueriesFail.computeOffset ⟨35, 139⟩ (5 * (2 / 5) * 1000) (45 * (i : ℚ))) :=
  c5_candidate_geometry envAllQueriesFail ⟨35, 139⟩ 5 (by norm_num) rfl rfl

theorem toleranceSortLE_trans (dd : ℚ) (a b c : OptimalRouteData)
    (hab : toleranceSortLE dd a b = true) (hbc : toleranceSortLE dd b c = true) :
    toleranceSortLE dd a c = true := by
  simp only [toleranceSortLE, decide_eq_true_eq] at hab hbc ⊢
  by_cases h1 : a.elevationGainM = b.elevationGainM <;>
    by_cases h2 : b.elevationGainM = c.elevationGainM
  · rw [if_pos h1] at hab
    rw [if_pos h2] at hbc
    rw [if_pos (h1.trans h2)]
    exact le_trans hab hbc
  · rw [if_pos h1] at hab
    rw [if_neg h2] at hbc
    rw [if_neg (fun h => h2 (h1.symm.trans h)), h1]
    exact hbc
  · rw [if_neg h1] at hab
    rw [if_pos h2] at hbc
    rw [if_neg (fun h => h1 (h.trans h2.symm)), ← h2]
    exact hab
  · rw [if_neg h1] at hab
    rw [if_neg h2] at hbc
    have hac : a.elevationGainM < c.elevationGainM :=
      lt_trans (lt_of_le_of_ne hab h1) (lt_of_le_of_ne hbc h2)
    rw [if_neg (ne_of_lt hac)]
    exact le_of_lt hac

theorem toleranceSortLE_total (dd : ℚ) (a b : OptimalRouteData) :
    (toleranceSortLE dd a b || toleranceSortLE dd b a) = true := by
  simp only [toleranceSortLE, Bool.or_eq_true, decide_eq_true_eq]
  by_cases h : a.elevationGainM = b.elevationGainM
  · rw [if_pos h, if_pos h.symm]
    exact le_total _ _
  · rw [if_neg h, if_neg (Ne.symm h)]
    exact le_total _ _

theorem fallbackSortLE_trans (dd : ℚ) (a b c : OptimalRouteData)
    (hab : fallbackSortLE dd a b = true) (hbc : fallbackSortLE dd b c = true) :
    fallbackSortLE dd a c = true := by
  simp only [fallbackSortLE, decide_eq_true_eq] at hab hbc ⊢
  by_cases h1 : |a.distanceKm - dd| = |b.distanceKm - dd| <;>
    by_cases h2 : |b.distanceKm - dd| = |c.distanceKm - dd|
  · rw [if_pos h1] at hab
    rw [if_pos h2] at hbc
    rw [if_pos (h1.trans h2)]
    exact le_trans hab hbc
  · rw [if_pos h1] at hab
    rw [if_neg h2] at hbc
    rw [if_neg (fun h => h2 (h1.symm.trans h)), h1]
    exact hbc
  · rw [if_neg h1] at hab
    rw [if_pos h2] at hbc
    rw [if_neg (fun h => h1 (h.trans h2.symm)), ← h2]
    exact hab
  · rw [if_neg h1] at hab
    rw [if_neg h2] at hbc
    have hac : |a.distanceKm - dd| < |c.distanceKm - dd| :=
      lt_trans (lt_of_le_of_ne hab h1) (lt_of_le_of_ne hbc h2)
    rw [if_neg (ne_of_lt hac)]
    exact le_of_lt hac

theorem fallbackSortLE_total (dd : ℚ) (a b : OptimalRouteData) :
    (fallbackSortLE dd a b || fallbackSortLE dd b a) = true := by
  simp only [fallbackSortLE, Bool.or_eq_true, decide_eq_true_eq]
  by_cases h : |a.distanceKm - dd| = |b.distanceKm - dd|
  · rw [if_pos h, if_pos h.symm]
    exact le_total _ _
  · rw [if_neg h, if_neg (Ne.symm h)]
    exact le_total _ _

theorem head_mergeSort_min {α : Type} {le : α → α → Bool}
    (htrans : ∀ a b c, le a b = true → le b c = true → le a c = true)
    (htotal : ∀ a b, (le a b || le b a) = true)
    {l : List α} {m : α} (hm : (l.mergeSort le).head? = some m) :
    m ∈ l ∧ ∀ x ∈ l, le m x = true := by
  rcases hsort : l.mergeSort le with _ | ⟨m', t⟩
  · rw [hsort] at hm
    simp at hm
  · rw [hsort] at hm
    simp only [List.head?_cons, Option.some.injEq] at hm
    subst hm
    have hpair : (l.mergeSort le).Pairwise (fun a b => le a b = true) :=
      List.sorted_mergeSort htrans htotal l
    rw [hsort, List.pairwise_cons] at hpair
    constructor
    · have hmem : m' ∈ l.mergeSort le := by
        rw [hsort]
        exact List.mem_cons_self _ _
      exact List.mem_mergeSort.mp hmem
    · intro x hx
      have hx' : x ∈ m' :: t := by
        rw [← hsort]
        exact List.mem_mergeSort.mpr hx
      rcases List.mem_cons.mp hx' with rfl | hxt
      · have := htotal x x
        simpa using this
      · exact hpair.1 x hxt

theorem mergeSort_head_some {α : Type} (le : α → α → Bool) {l : List α} (h : l ≠ []) :
    ∃ m, (l.mergeSort le).head? = some m := by
  rcases hs : l.mergeSort le with _ | ⟨m, t⟩
  · exfalso
    have hlen := congrArg List.length hs
    rw [List.length_mergeSort] at hlen
    exact h (List.length_eq_zero.mp hlen)
  · exact ⟨m, rfl⟩

theorem selectBestRoute_tol_branch (vr : List OptimalRouteData) (dd : ℚ)
    (hne0 : vr ≠ [])
    (hlen : 0 < (vr.filter fun x =>
      decide (dd * (1 - DISTANCE_TOLERANCE_FACTOR) ≤ x.distanceKm) &&
        decide (x.distanceKm ≤ dd * (1 + DISTANCE_TOLERANCE_FACTOR))).length) :
    selectBestRoute vr dd = ((vr.filter fun x =>
      decide (dd * (1 - DISTANCE_TOLERANCE_FACTOR) ≤ x.distanceKm) &&
        decide (x.distanceKm ≤ dd * (1 + DISTANCE_TOLERANCE_FACTOR))).mergeSort
        (toleranceSortLE dd)).head? := by
  simp only [selectBestRoute]
  rw [if_neg (fun h0 => hne0 (List.length_eq_zero.mp h0)), if_pos hlen]

theorem selectBestRoute_fallback_branch (vr : List OptimalRouteData) (dd : ℚ)
    (hne0 : vr ≠ [])
    (hnil : (vr.filter fun x =>
      decide (dd * (1 - DISTANCE_TOLERANCE_FACTOR) ≤ x.distanceKm) &&
        decide (x.distanceKm ≤ dd * (1 + DISTANCE_TOLERANCE_FACTOR))) = []) :
    selectBestRoute vr dd = (vr.mergeSort (fallbackSortLE dd)).head? := by
  simp only [selectBestRoute]
  rw [if_neg (fun h0 => hne0 (List.length_eq_zero.mp h0)), hnil]
  rw [if_neg (by simp)]
  rw [if_pos (by rw [List.length_mergeSort]; exact List.length_pos.mpr hne0)]

/-- C1: when some evaluated candidate lies in the tolerance window
`[d*(1-t), d*(1+t)]` with `t = 0.25`, the selector returns an in-tolerance
candidate whose `elevationGainM` is minimal over the in-tolerance subset, with
ties on elevation broken by smaller `|distanceKm - d|`; in particular for
`d = 5` and candidates A(5.0 km, 50 m), B(4.0 km, 10 m), C(6.5 km, 5 m) it
returns B. -/
theorem c1_in_tolerance_selection (validRoutes : List OptimalRouteData) (d : ℚ)
    (_hd : 0 < d)
    (hex : ∃ r ∈ validRoutes,
      d * (1 - DISTANCE_TOLERANCE_FACTOR) ≤ r.distanceKm ∧
        r.distanceKm ≤ d * (1 + DISTANCE_TOLERANCE_FACTOR)) :
    (∃ res, selectBestRoute validRoutes d = some res ∧
      res ∈ validRoutes ∧
      (d * (1 - DISTANCE_TOLERANCE_FACTOR) ≤ res.distanceKm ∧
        res.distanceKm ≤ d * (1 + DISTANCE_TOLERANCE_FACTOR)) ∧
      ∀ x ∈ validRoutes,
        d * (1 - DISTANCE_TOLERANCE_FACTOR) ≤ x.distanceKm →
        x.distanceKm ≤ d * (1 + DISTANCE_TOLERANCE_FACTOR) →
          res.elevationGainM ≤ x.elevationGainM ∧
          (x.elevationGainM = res.elevationGainM →
            |res.distanceKm - d| ≤ |x.distanceKm - d|)) ∧
    selectBestRoute [candA, candB, candC] 5 = some candB := by
  have hgen : ∀ (vr : List OptimalRouteData) (dd : ℚ),
      (∃ r ∈ vr, dd * (1 - DISTANCE_TOLERANCE_FACTOR) ≤ r.distanceKm ∧
        r.distanceKm ≤ dd * (1 + DISTANCE_TOLERANCE_FACTOR)) →
      ∃ res, selectBestRoute vr dd = some res ∧ res ∈ vr ∧
        (dd * (1 - DISTANCE_TOLERANCE_FACTOR) ≤ res.distanceKm ∧
          res.distanceKm ≤ dd * (1 + DISTANCE_TOLERANCE_FACTOR)) ∧
        ∀ x ∈ vr, dd * (1 - DISTANCE_TOLERANCE_FACTOR) ≤ x.distanceKm →
          x.distanceKm ≤ dd * (1 + DISTANCE_TOLERANCE_FACTOR) →
            res.elevationGainM ≤ x.elevationGainM ∧
            (x.elevationGainM = res.elevationGainM →
              |res.distanceKm - dd| ≤ |x.distanceKm - dd|) := by
    intro vr dd hex'
    obtain ⟨r, hr, hr1, hr2⟩ := hex'
    have hne0 : vr ≠ [] := List.ne_nil_of_mem hr
    have hrfil : r ∈ vr.filter fun x =>
        decide (dd * (1 - DISTANCE_TOLERANCE_FACTOR) ≤ x.distanceKm) &&
          decide (x.distanceKm ≤ dd * (1 + DISTANCE_TOLERANCE_FACTOR)) :=
      List.mem_filter.mpr ⟨hr, by simp [hr1, hr2]⟩
    have hlen : 0 < (vr.filter fun x =>
        decide (dd * (1 - DISTANCE_TOLERANCE_FACTOR) ≤ x.distanceKm) &&
          decide (x.distanceKm ≤ dd * (1 + DISTANCE_TOLERANCE_FACTOR))).length :=
      List.length_pos.mpr (List.ne_nil_of_mem hrfil)
    obtain ⟨res, hh⟩ :=
      mergeSort_head_some (toleranceSortLE dd) (List.ne_nil_of_mem hrfil)
    have hmin := head_mergeSort_min (toleranceSortLE_trans dd) (toleranceSortLE_total dd) hh
    refine ⟨res, ?_, ?_, ?_, ?_⟩
    · rw [selectBestRoute_tol_branch vr dd hne0 hlen, hh]
    · exact (List.mem_filter.mp hmin.1).1
    · have hp := (List.mem_filter.mp hmin.1).2
      simp only [Bool.and_eq_true, decide_eq_true_eq] at hp
      exact hp
    · intro x hx hx1 hx2
      have hxfil : x ∈ vr.filter fun y =>
          decide (dd * (1 - DISTANCE_TOLERANCE_FACTOR) ≤ y.distanceKm) &&
            decide (y.distanceKm ≤ dd * (1 + DISTANCE_TOLERANCE_FACTOR)) :=
        List.mem_filter.mpr ⟨hx, by simp [hx1, hx2]⟩
      have hle := hmin.2 x hxfil
      simp only [toleranceSortLE, decide_eq_true_eq] at hle
      by_cases he : res.elevationGainM = x.elevationGainM
      · rw [if_pos he] at hle
        exact ⟨le_of_eq he, fun _ => hle⟩
      · rw [if_neg he] at hle
        exact ⟨hle, fun hxe => absurd hxe.symm he⟩
  refine ⟨hgen validRoutes d hex, ?_⟩
  obtain ⟨res, hsel, hmem, hint, hmin⟩ := hgen [candA, candB, candC] 5
    ⟨candB, by simp, by norm_num [candB, DISTANCE_TOLERANCE_FACTOR],
      by norm_num [candB, DISTANCE_TOLERANCE_FACTOR]⟩
  simp only [List.mem_cons, List.not_mem_nil, or_false] at hmem
  rcases hmem with rfl | rfl | rfl
  · exfalso
    have hba := (hmin candB (by simp)
      (by norm_num [candB, DISTANCE_TOLERANCE_FACTOR])
      (by norm_num [candB, DISTANCE_TOLERANCE_FACTOR])).1
    norm_num [candA, candB] at hba
  · exact hsel
  · exfalso
    norm_num [candC, DISTANCE_TOLERANCE_FACTOR] at hint

/-- Witness for C1 at the concrete scenario of the claim. -/
theorem c1_in_tolerance_selection_witness :
    (∃ res, selectBestRoute [candA, candB, candC] 5 = some res ∧
      res ∈ [candA, candB, candC] ∧
      ((5 : ℚ) * (1 - DISTANCE_TOLERANCE_FACTOR) ≤ res.distanceKm ∧
        res.distanceKm ≤ 5 * (1 + DISTANCE_TOLERANCE_FACTOR)) ∧
      ∀ x ∈ [candA, candB, candC],
        (5 : ℚ) * (1 - DISTANCE_TOLERANCE_FACTOR) ≤ x.distanceKm →
        x.distanceKm ≤ 5 * (1 + DISTANCE_TOLERANCE_FACTOR) →
          res.elevationGainM ≤ x.elevationGainM ∧
          (x.elevationGainM = res.elevationGainM →
            |res.distanceKm - 5| ≤ |x.distanceKm - 5|)) ∧
    selectBestRoute [candA, candB, candC] 5 = some candB :=
  c1_in_tolerance_selection [candA, candB, candC] 5 (by norm_num)
    ⟨candB, by simp, by norm_num [candB, DISTANCE_TOLERANCE_FACTOR],
      by norm_num [candB, DISTANCE_TOLERANCE_FACTOR]⟩

/-- C2: when no evaluated candidate lies in the tolerance window, the selector
returns a candidate whose `|distanceKm - d|` is minimal over the full set, with
ties broken by smaller `elevationGainM`; in particular for `d = 5` and
candidates D(7.0 km, 20 m), E(8.0 km, 5 m) it returns D. -/
theorem c2_fallback_selection (validRoutes : List OptimalRouteData) (d : ℚ)
    (_hd : 0 < d) (hne : validRoutes ≠ [])
    (hout : ∀ r ∈ validRoutes,
      ¬(d * (1 - DISTANCE_TOLERANCE_FACTOR) ≤ r.distanceKm ∧
        r.distanceKm ≤ d * (1 + DISTANCE_TOLERANCE_FACTOR))) :
    (∃ res, selectBestRoute validRoutes d = some res ∧
      res ∈ validRoutes ∧
      ∀ x ∈ validRoutes,
        |res.distanceKm - d| ≤ |x.distanceKm - d| ∧
        (|x.distanceKm - d| = |res.distanceKm - d| →
          res.elevationGainM ≤ x.elevationGainM)) ∧
    selectBestRoute [candD, candE] 5 = some candD := by
  have hgen : ∀ (vr : List OptimalRouteData) (dd : ℚ), vr ≠ [] →
      (∀ r ∈ vr, ¬(dd * (1 - DISTANCE_TOLERANCE_FACTOR) ≤ r.distanceKm ∧
        r.distanceKm ≤ dd * (1 + DISTANCE_TOLERANCE_FACTOR))) →
      ∃ res, selectBestRoute vr dd = some res ∧ res ∈ vr ∧
        ∀ x ∈ vr, |res.distanceKm - dd| ≤ |x.distanceKm - dd| ∧
          (|x.distanceKm - dd| = |res.distanceKm - dd| →
            res.elevationGainM ≤ x.elevationGainM) := by
    intro vr dd hne' hout'
    have hnil : (vr.filter fun x =>
        decide (dd * (1 - DISTANCE_TOLERANCE_FACTOR) ≤ x.distanceKm) &&
          decide (x.distanceKm ≤ dd * (1 + DISTANCE_TOLERANCE_FACTOR))) = [] := by
      rw [List.filter_eq_nil_iff]
      intro a ha
      have := hout' a ha
      simp only [Bool.and_eq_true, decide_eq_true_eq]
      tauto
    obtain ⟨res, hh⟩ := mergeSort_head_some (fallbackSortLE dd) hne'
    have hmin := head_mergeSort_min (fallbackSortLE_trans dd) (fallbackSortLE_total dd) hh
    refine ⟨res, ?_, hmin.1, ?_⟩
    · rw [selectBestRoute_fallback_branch vr dd hne' hnil, hh]
    · intro x hx
      have hle := hmin.2 x hx
      simp only [fallbackSortLE, decide_eq_true_eq] at hle
      by_cases he : |res.distanceKm - dd| = |x.distanceKm - dd|
      · rw [if_pos he] at hle
        exact ⟨le_of_eq he, fun _ => hle⟩
      · rw [if_neg he] at hle
        exact ⟨hle, fun hxe => absurd hxe.symm he⟩
  refine ⟨hgen validRoutes d hne hout, ?_⟩
  obtain ⟨res, hsel, hmem, hmin⟩ := hgen [candD, candE] 5 (by simp)
    (by
      intro r hr
      simp only [List.mem_cons, List.not_mem_nil, or_false] at hr
      rcases hr with rfl | rfl <;>
        norm_num [candD, candE, DISTANCE_TOLERANCE_FACTOR])
  simp only [List.mem_cons, List.not_mem_nil, or_false] at hmem
  rcases hmem with rfl | rfl
  · exact hsel
  · exfalso
    have hde := (hmin candD (by simp)).1
    norm_num [candD, candE] at hde

/-- Witness for C2 at the concrete scenario of the claim. -/
theorem c2_fallback_selection_witness :
    (∃ res, selectBestRoute [candD, candE] 5 = some res ∧
      res ∈ [candD, candE] ∧
      ∀ x ∈ [candD, candE],
        |res.distanceKm - 5| ≤ |x.distanceKm - 5| ∧
        (|x.distanceKm - 5| = |res.distanceKm - 5| →
          res.elevationGainM ≤ x.elevationGainM)) ∧
    selectBestRoute [candD, candE] 5 = some candD :=
  c2_fallback_selection [candD, candE] 5 (by norm_num) (by simp)
    (by
      intro r hr
      simp only [List.mem_cons, List.not_mem_nil, or_false] at hr
      rcases hr with rfl | rfl <;>
        norm_num [candD, candE, DISTANCE_TOLERANCE_FACTOR])

/-- `evaluateCandidate` yields no candidate whenever the directions status is
not `OK`. -/
theorem evaluateCandidate_of_not_ok (resp : DirectionsStatus × Option DirectionsResult)
    (elevationService : ElevationRequest → ElevationStatus × Option (List ElevationResult))
    (h : resp.1 ≠ DirectionsStatus.OK) :
    evaluateCandidate resp elevationService = none := by
  rcases resp with ⟨s, r?⟩
  cases s with
  | OK => exact absurd rfl h
  | ZERO_RESULTS => cases r? <;> rfl
  | OTHER_ERROR => cases r? <;> rfl

/-- C3: every collected candidate stems from a fulfilled non-null outcome;
failed or null outcomes contribute nothing, so an all-failure outcome vector
selects `none`; and with the API loaded, route queries that all fail make
`findOptimalLoopRoute` return the distinguished `Except.ok none`, never an
error. -/
theorem c3_failures_absorbed
    (results : List (Except String (Option OptimalRouteData))) (d : ℚ)
    (env : GoogleMapsEnv) (startPoint : LatLng) :
    (∀ v ∈ collectValidRoutes results, Except.ok (some v) ∈ results) ∧
    ((∀ r ∈ results, ∀ v, r ≠ Except.ok (some v)) →
      selectBestRoute (collectValidRoutes results) d = none) ∧
    (env.mapsApiLoaded = true → (∀ req, (env.route req).1 ≠ DirectionsStatus.OK) →
      findOptimalLoopRoute env startPoint d = Except.ok none) := by
  refine ⟨?_, ?_, ?_⟩
  · intro v hv
    simp only [collectValidRoutes, List.mem_filterMap] at hv
    obtain ⟨r, hr, hmatch⟩ := hv
    rcases r with msg | o
    · simp at hmatch
    · rcases o with _ | w
      · simp at hmatch
      · simp only [Option.some.injEq] at hmatch
        subst hmatch
        exact hr
  · intro hall
    have hnil : collectValidRoutes results = [] := by
      apply List.filterMap_eq_nil_iff.mpr
      intro r hr
      rcases r with msg | o
      · rfl
      · rcases o with _ | w
        · rfl
        · exact absurd rfl (hall _ hr w)
    rw [hnil]
    rfl
  · intro hm hfail
    have hcand : ∀ w : LatLng,
        evaluateCandidate (env.route { origin := startPoint
                                       destination := startPoint
                                       waypoints := [w]
                                       travelMode := TravelMode.WALKING })
          env.getElevationForPath = none :=
      fun w => evaluateCandidate_of_not_ok _ _ (hfail _)
    simp only [findOptimalLoopRoute, hm, Bool.not_true, Bool.false_eq_true, if_false]
    suffices hsel : collectValidRoutes
        ((candidateWaypoints env startPoint d).map fun intermediateGeoPoint =>
          Except.ok (evaluateCandidate
            (env.route { origin := startPoint
                         destination := startPoint
                         waypoints := [intermediateGeoPoint]
                         travelMode := TravelMode.WALKING })
            env.getElevationForPath)) = [] by
      rw [hsel]
      rfl
    apply List.filterMap_eq_nil_iff.mpr
    intro r hr
    simp only [List.mem_map] at hr
    obtain ⟨w, _, rfl⟩ := hr
    rw [hcand w]

/-- Witness for C3 on a concrete all-failure outcome vector and environment. -/
theorem c3_failures_absorbed_witness :
    (∀ v ∈ collectValidRoutes resultsAllFail, Except.ok (some v) ∈ resultsAllFail) ∧
    selectBestRoute (collectValidRoutes resultsAllFail) 5 = none ∧
    findOptimalLoopRoute envAllQueriesFail ⟨35, 139⟩ 5 = Except.ok none :=
  ⟨(c3_failures_absorbed resultsAllFail 5 envAllQueriesFail ⟨35, 139⟩).1,
   (c3_failures_absorbed resultsAllFail 5 envAllQueriesFail ⟨35, 139⟩).2.1
     (by
       intro r hr v
       simp only [resultsAllFail, List.mem_cons, List.not_mem_nil, or_false] at hr
       rcases hr with rfl | rfl <;> simp),
   (c3_failures_absorbed resultsAllFail 5 envAllQueriesFail ⟨35, 139⟩).2.2 rfl
     (by intro req h; simp [envAllQueriesFail] at h)⟩

/-- With the geometry library unavailable, every projection returns `null` and
the candidate waypoint list is empty. -/
theorem candidateWaypoints_of_no_geometry (env : GoogleMapsEnv) (startPoint : LatLng)
    (d : ℚ) (hg : env.geometryLoaded = false) :
    candidateWaypoints env startPoint d = [] := by
  apply List.filterMap_eq_nil_iff.mpr
  intro i _
  simp [calculateIntermediatePoint, hg]

/-- C6 counterexample: in a state where the Maps API is loaded but the
geometry (projection) capability is not, `findOptimalLoopRoute` does not fail
deterministically; it silently proceeds with an empty candidate list and
degrades to the "none found" outcome, which the caller reports as "no
course". -/
theorem c6_counterexample :
    envNoGeometry.mapsApiLoaded = true ∧
    envNoGeometry.geometryLoaded = false ∧
    findOptimalLoopRoute envNoGeometry ⟨35, 139⟩ 5 = Except.ok none ∧
    handleGenerateCourse envNoGeometry (some ⟨35, 139⟩) 5 = GenerateOutcome.noCourse := by
  refine ⟨rfl, rfl, rfl, ?_⟩
  simp only [handleGenerateCourse]
  rw [if_neg (by norm_num : ¬ (5 : ℚ) ≤ 0),
    show findOptimalLoopRoute envNoGeometry ⟨35, 139⟩ 5 = Except.ok none from rfl]

/-- C6 (amended): a missing start point or a non-positive desired distance is
rejected by the caller before selection starts, and an unavailable Maps query
capability is surfaced as a hard error; but an unavailable projection
capability alone produces no waypoints and silently degrades to the
"none found" outcome instead of a hard failure. -/
theorem c6_amended_preconditions :
    (∀ (env : GoogleMapsEnv) (d : ℚ), handleGenerateCourse env none d
      = GenerateOutcome.validationError "Please set a start point on the map.") ∧
    (∀ (env : GoogleMapsEnv) (s : LatLng) (d : ℚ), d ≤ 0 →
      handleGenerateCourse env (some s) d
        = GenerateOutcome.validationError "Please enter a valid distance greater than 0 km.") ∧
    (∀ (env : GoogleMapsEnv) (s : LatLng) (d : ℚ), env.mapsApiLoaded = false →
      findOptimalLoopRoute env s d = Except.error "Google Maps API not loaded.") ∧
    (∀ (env : GoogleMapsEnv) (s : LatLng) (d : ℚ), env.geometryLoaded = false →
      candidateWaypoints env s d = []) ∧
    (∀ (env : GoogleMapsEnv) (s : LatLng) (d : ℚ),
      env.mapsApiLoaded = true → env.geometryLoaded = false →
      findOptimalLoopRoute env s d = Except.ok none) := by
  refine ⟨fun env d => rfl, ?_, ?_, ?_, ?_⟩
  · intro env s d hle
    simp only [handleGenerateCourse]
    rw [if_pos hle]
  · intro env s d hm
    simp [findOptimalLoopRoute, hm]
  · exact candidateWaypoints_of_no_geometry
  · intro env s d hm hg
    simp only [findOptimalLoopRoute, hm, Bool.not_true, Bool.false_eq_true, if_false,
      candidateWaypoints_of_no_geometry env s d hg, List.map_nil]
    rfl

/-- Witness for C6 (amended) at concrete environments and inputs. -/
theorem c6_amended_preconditions_witness :
    handleGenerateCourse envNoGeometry (some ⟨35, 139⟩) 0
      = GenerateOutcome.validationError "Please enter a valid distance greater than 0 km." ∧
    findOptimalLoopRoute envMapsOff ⟨35, 139⟩ 5
      = Except.error "Google Maps API not loaded." ∧
    candidateWaypoints envNoGeometry ⟨35, 139⟩ 5 = [] ∧
    findOptimalLoopRoute envNoGeometry ⟨35, 139⟩ 5 = Except.ok none :=
  ⟨c6_amended_preconditions.2.1 envNoGeometry ⟨35, 139⟩ 0 (by norm_num),
   c6_amended_preconditions.2.2.1 envMapsOff ⟨35, 139⟩ 5 rfl,
   c6_amended_preconditions.2.2.2.1 envNoGeometry ⟨35, 139⟩ 5 rfl,
   c6_amended_preconditions.2.2.2.2 envNoGeometry ⟨35, 139⟩ 5 rfl rfl⟩

/-- Witness for C7: a surfaced 1 km candidate, a zero-distance discard, and a
short-path discard, all at concrete inputs. -/
theorem c7_candidate_invariants_witness :
    (0 < (⟨goodResult, 1, 1⟩ : OptimalRouteData).distanceKm ∧
      ∃ route rest, (⟨goodResult, 1, 1⟩ : OptimalRouteData).route.routes = route :: rest ∧
        2 ≤ route.overview_path.length) ∧
    evaluateCandidate (DirectionsStatus.OK, some resultNoDist) elevServiceOk = none ∧
    evaluateCandidate (DirectionsStatus.OK, some shortPathResult) elevServiceOk = none ∧
    candA ∈ [candA] := by
  have hfil : [candA].filter (fun x =>
      decide ((5 : ℚ) * (1 - DISTANCE_TOLERANCE_FACTOR) ≤ x.distanceKm) &&
        decide (x.distanceKm ≤ (5 : ℚ) * (1 + DISTANCE_TOLERANCE_FACTOR))) = [candA] := by
    simp only [List.filter_cons, List.filter_nil, Bool.and_eq_true, decide_eq_true_eq]
    rw [if_pos (by norm_num [candA, DISTANCE_TOLERANCE_FACTOR])]
  have hsel : selectBestRoute [candA] 5 = some candA := by
    rw [selectBestRoute_tol_branch [candA] 5 (by simp) (by rw [hfil]; simp)]
    rw [hfil, List.mergeSort_singleton]
    rfl
  exact ⟨(c7_candidate_invariants elevServiceOk).1 DirectionsStatus.OK (some goodResult)
      ⟨goodResult, 1, 1⟩
      (by
        intro result h
        injection h with h
        subst h
        intro route hroute leg hleg dv hdv
        simp only [goodResult, List.mem_cons, List.not_mem_nil, or_false] at hroute
        subst hroute
        simp only [goodRoute, List.mem_cons, List.not_mem_nil, or_false] at hleg
        subst hleg
        simp only [goodRoute, Option.some.injEq] at hdv
        subst hdv
        norm_num)
      (by
        norm_num [evaluateCandidate, actualDistanceMeters, goodResult, goodRoute,
          elevServiceOk, buildElevationRequest, calculateCumulativeElevation]),
   (c7_candidate_invariants elevServiceOk).2.1 resultNoDist routeNoDist [] rfl
     (by
       norm_num [actualDistanceMeters, routeNoDist]),
   (c7_candidate_invariants elevServiceOk).2.2.1 shortPathResult shortPathRoute [] rfl
     (by norm_num [shortPathRoute]),
   (c7_candidate_invariants elevServiceOk).2.2.2 [candA] 5 candA hsel⟩

end RunningCourse
